import Mathlib

/-!
Shallow embedding of the color subsystem of `src/physiscript/utils.py`
(the `Color` class, its factories, its output converters and the
predefined-color table), together with theorems settling the frozen
claims about the specification.

Modelling conventions:
* Python floats are modelled as exact rationals (`ℚ`).  The claims under
  study are about exact integer round-trips and range checks, which hold
  verbatim over `ℚ`; IEEE-754 rounding is out of scope of the embedding.
* Python ints are modelled as `ℤ` (arbitrary precision, as in Python);
  nonnegative bit manipulation is done on `ℕ` after a guard, matching
  the Python `>>`/`&` behaviour on nonnegative ints.
* A Python function that can raise is modelled as returning
  `Except ColorError _`.  The error kinds follow the spec taxonomy
  (section 7): `invalidColorValue` stands for the `ValueError`s raised at
  numeric range checks, `invalidColorFormat` for the `ValueError`s raised
  at string/sequence/bytes shape checks, and `unsupportedColorType` for
  the `TypeError` raised by `create` on an unsupported input type.  The
  messages are the ones of the corresponding `raise` statements (for
  `unsupportedColorType` the Python message interpolates `repr(value)`,
  which is not modelled, so that constructor carries no message).
-/

/-- Error kinds of the color subsystem, following the spec taxonomy of
the `ValueError`/`TypeError` raises in `utils.py` (see the module
comment for the mapping). -/
inductive ColorError
  | invalidColorValue (msg : String)
  | invalidColorFormat (msg : String)
  | unsupportedColorType
deriving DecidableEq

/-- The `Color` value: four normalized channels, stored exactly as the
Python slots `_r`, `_g`, `_b`, `_a` (floats modelled as rationals). -/
structure Color where
  red : ℚ
  green : ℚ
  blue : ℚ
  alpha : ℚ
deriving DecidableEq

/-- Embedding of `Color.__init__` (the primary constructor): rejects any
channel outside `[0, 1]` with the `ValueError` of line 32, otherwise
stores the four channels unchanged.  The Python default `alpha = 1` is
passed explicitly by the callers in this embedding. -/
def Color.mk? (red green blue alpha : ℚ) : Except ColorError Color :=
  if 0 ≤ red ∧ red ≤ 1 ∧ 0 ≤ green ∧ green ≤ 1 ∧ 0 ≤ blue ∧ blue ≤ 1
      ∧ 0 ≤ alpha ∧ alpha ≤ 1 then
    .ok ⟨red, green, blue, alpha⟩
  else
    .error (.invalidColorValue "RGBA coordinates must be normalized (between 0 and 1)")

/-- Embedding of `Color.from_rgb`.  Note that the Python code only range
checks its arguments (`0 <= red <= 255` etc.); the `int` type annotation
is not enforced at runtime, so the embedding takes rationals. -/
def Color.from_rgb (red green blue : ℚ) : Except ColorError Color :=
  if 0 ≤ red ∧ red ≤ 255 ∧ 0 ≤ green ∧ green ≤ 255 ∧ 0 ≤ blue ∧ blue ≤ 255 then
    Color.mk? (red / 255) (green / 255) (blue / 255) 1
  else
    .error (.invalidColorValue "RGB coordinates must be between 0 and 255")

/-- Embedding of `Color.from_rgba` (same remark as for `from_rgb`). -/
def Color.from_rgba (red green blue alpha : ℚ) : Except ColorError Color :=
  if 0 ≤ red ∧ red ≤ 255 ∧ 0 ≤ green ∧ green ≤ 255 ∧ 0 ≤ blue ∧ blue ≤ 255
      ∧ 0 ≤ alpha ∧ alpha ≤ 255 then
    Color.mk? (red / 255) (green / 255) (blue / 255) (alpha / 255)
  else
    .error (.invalidColorValue "RGBA coordinates must be between 0 and 255")

/-- The Python built-in `round` on a rational: round to the nearest
integer, with ties going to the even integer. -/
def pyRound (x : ℚ) : ℤ :=
  if x - ⌊x⌋ < 1 / 2 then ⌊x⌋
  else if (1 : ℚ) / 2 < x - ⌊x⌋ then ⌊x⌋ + 1
  else if ⌊x⌋ % 2 = 0 then ⌊x⌋ else ⌊x⌋ + 1

/-- Embedding of `Color.rgb`. -/
def Color.rgb (c : Color) : ℤ × ℤ × ℤ :=
  (pyRound (255 * c.red), pyRound (255 * c.green), pyRound (255 * c.blue))

/-- Embedding of `Color.rgba`. -/
def Color.rgba (c : Color) : ℤ × ℤ × ℤ × ℤ :=
  (pyRound (255 * c.red), pyRound (255 * c.green),
    pyRound (255 * c.blue), pyRound (255 * c.alpha))

/-- Embedding of `Color.normalized_rgb`. -/
def Color.normalized_rgb (c : Color) : ℚ × ℚ × ℚ :=
  (c.red, c.green, c.blue)

/-- Embedding of `Color.normalized_rgba`. -/
def Color.normalized_rgba (c : Color) : ℚ × ℚ × ℚ × ℚ :=
  (c.red, c.green, c.blue, c.alpha)

/-- Embedding of `Color.__int__`: `a + (b << 8) + (g << 16) + (r << 24)`
on the rounded 8-bit channels (`x << k` on Python ints is `x * 2 ^ k`). -/
def Color.toInt (c : Color) : ℤ :=
  match c.rgba with
  | (r, g, b, a) => a + b * 2 ^ 8 + g * 2 ^ 16 + r * 2 ^ 24

/-- Whitespace stripped by Python `int(str, 16)` (the ASCII whitespace
characters; exotic Unicode whitespace is not modelled). -/
def pyWhitespace (c : Char) : Bool :=
  c == ' ' || c == '\t' || c == '\n' || c == '\r' || c.toNat == 11 || c.toNat == 12

/-- Strip leading and trailing whitespace from a character list. -/
def stripPyWs (cs : List Char) : List Char :=
  ((cs.dropWhile pyWhitespace).reverse.dropWhile pyWhitespace).reverse

/-- Value of a hexadecimal digit character, if any. -/
def hexDigitVal? (c : Char) : Option ℕ :=
  if 48 ≤ c.toNat ∧ c.toNat ≤ 57 then some (c.toNat - 48)
  else if 97 ≤ c.toNat ∧ c.toNat ≤ 102 then some (c.toNat - 87)
  else if 65 ≤ c.toNat ∧ c.toNat ≤ 70 then some (c.toNat - 55)
  else none

/-- Run of hexadecimal digits after the first one, allowing a single
underscore between two digits (as Python `int(str, 16)` does). -/
def hexRun : ℕ → List Char → Option ℕ
  | acc, [] => some acc
  | _, ['_'] => none
  | acc, '_' :: c :: cs =>
    match hexDigitVal? c with
    | some d => hexRun (16 * acc + d) cs
    | none => none
  | acc, c :: cs =>
    match hexDigitVal? c with
    | some d => hexRun (16 * acc + d) cs
    | none => none

/-- Nonempty run of hexadecimal digits (with internal underscores),
starting with a digit. -/
def hexDigits? : List Char → Option ℕ
  | [] => none
  | c :: cs =>
    match hexDigitVal? c with
    | some d => hexRun d cs
    | none => none

/-- Digits after an explicit `0x`/`0X` marker; Python additionally allows
one underscore directly after the marker. -/
def afterHexMarker : List Char → Option ℕ
  | '_' :: cs => hexDigits? cs
  | cs => hexDigits? cs

/-- Magnitude part of `int(s, 16)`: optional `0x`/`0X` prefix, then
digits. -/
def pyIntMag : List Char → Option ℕ
  | '0' :: 'x' :: rest => afterHexMarker rest
  | '0' :: 'X' :: rest => afterHexMarker rest
  | body => hexDigits? body

/-- Embedding of the Python call `int(s, 16)` on a character list, returning
`none` where Python raises `ValueError`: optional surrounding
whitespace, an optional sign, an optional `0x`/`0X` prefix, then a
nonempty run of hex digits with single underscores between digits.
(Unicode digit variants are not modelled; all call sites below pass
slices of user strings, which the claims only exercise on ASCII.) -/
def pyIntBase16? (s : List Char) : Option ℤ :=
  match stripPyWs s with
  | '+' :: body => (pyIntMag body).map (fun n => (n : ℤ))
  | '-' :: body => (pyIntMag body).map (fun n => -(n : ℤ))
  | body => (pyIntMag body).map (fun n => (n : ℤ))

/-- Embedding of the list comprehension
`[int(color[i : i + 2], 16) for i in range(start, len(color), 2)]`
wrapped in `try/except ValueError`: split the remaining characters into
slices of (at most) two and parse each with `int(_, 16)`; any failure
aborts the whole parse (`none`). -/
def parseBytePairs : List Char → Option (List ℤ)
  | [] => some []
  | [c] => (pyIntBase16? [c]).map (fun v => [v])
  | c1 :: c2 :: rest =>
    match pyIntBase16? [c1, c2], parseBytePairs rest with
    | some v, some vs => some (v :: vs)
    | _, _ => none

/-- Embedding of `Color._parse_html_color`: strings of the form
`#rrggbb` / `#rrggbbaa`.  Returns `.ok none` for "no match", `.ok (some c)`
for a parsed color; a `ValueError` raised by `from_rgb` / `from_rgba`
(which the Python code calls outside its `try`) propagates as `.error`. -/
def Color._parse_html_color (s : String) : Except ColorError (Option Color) :=
  if s.data.length % 2 = 0 then .ok none
  else
    match s.data with
    | [] => .ok none
    | c :: rest =>
      if c ≠ '#' then .ok none
      else
        match parseBytePairs rest with
        | none => .ok none
        | some [r, g, b] => (Color.from_rgb r g b).map some
        | some [r, g, b, a] => (Color.from_rgba r g b a).map some
        | some _ => .ok none

/-- Embedding of `Color._parse_hex_color`: strings of the form
`0xrrggbb` / `0xrrggbbaa` (total length 8 or 10, marker `x` or `X`). -/
def Color._parse_hex_color (s : String) : Except ColorError (Option Color) :=
  if s.data.length = 8 ∨ s.data.length = 10 then
    match s.data with
    | c0 :: c1 :: rest =>
      if c0 = '0' ∧ (c1 = 'x' ∨ c1 = 'X') then
        match parseBytePairs rest with
        | none => .ok none
        | some [r, g, b] => (Color.from_rgb r g b).map some
        | some [r, g, b, a] => (Color.from_rgba r g b a).map some
        | some _ => .ok none
      else .ok none
    | _ => .ok none
  else .ok none

/-- Embedding of `Color.from_html`. -/
def Color.from_html (s : String) : Except ColorError Color :=
  match Color._parse_html_color s with
  | .error e => .error e
  | .ok none => .error (.invalidColorFormat ("Invalid HTML format for color " ++ s))
  | .ok (some c) => .ok c

/-- Embedding of `Color.from_hex`. -/
def Color.from_hex (s : String) : Except ColorError Color :=
  match Color._parse_hex_color s with
  | .error e => .error e
  | .ok none => .error (.invalidColorFormat ("Invalid HEX format for color " ++ s))
  | .ok (some c) => .ok c

/-- Embedding of `Color.from_int`: range check, then byte extraction with
`>> ` and `& 0xFF` (on nonnegative ints these are the `ℕ` operations). -/
def Color.from_int (n : ℤ) : Except ColorError Color :=
  if 0 ≤ n ∧ n ≤ 0xFFFFFFFF then
    Color.from_rgba (((n.toNat >>> 24) &&& 0xFF : ℕ) : ℚ)
      (((n.toNat >>> 16) &&& 0xFF : ℕ) : ℚ)
      (((n.toNat >>> 8) &&& 0xFF : ℕ) : ℚ)
      ((n.toNat &&& 0xFF : ℕ) : ℚ)
  else
    .error (.invalidColorValue "An integer for an RGBA color must be between 0 and 0xFFFFFFFF")

/-- Embedding of `Color.from_bytes`.  A Python `bytes`/`bytearray`/
`memoryview` is a sequence of ints in `[0, 255]`; the embedding carries
them as naturals (the factories re-check the range anyway). -/
def Color.from_bytes (bs : List ℕ) : Except ColorError Color :=
  match bs with
  | [r, g, b] => Color.from_rgb (r : ℚ) (g : ℚ) (b : ℚ)
  | [r, g, b, a] => Color.from_rgba (r : ℚ) (g : ℚ) (b : ℚ) (a : ℚ)
  | _ => .error (.invalidColorFormat "Invalid bytes format for color")

/-- Color built from an 8-bit byte triple, the value of
`Color.from_rgb r g b` on in-range bytes (alpha defaults to 1).  The
entries of the predefined-color table are such colors. -/
def byteColor (r g b : ℤ) : Color :=
  ⟨(r : ℚ) / 255, (g : ℚ) / 255, (b : ℚ) / 255, 1⟩

/-- The raw predefined-color table: the `"name": Color.from_rgb(r, g, b)`
entries of `_PRE_DEFINED_COLORS` in `utils.py`, in source order (before
the final `dict(sorted(...))` normalization). -/
def rawColorTable : List (String × ℕ × ℕ × ℕ) := [
  ("alice-blue", 240, 248, 255),
  ("antique-white", 250, 235, 215),
  ("antique-white1", 255, 239, 219),
  ("antique-white2", 238, 223, 204),
  ("antique-white3", 205, 192, 176),
  ("antique-white4", 139, 131, 120),
  ("aqua", 0, 255, 255),
  ("aquamarine", 127, 255, 212),
  ("aquamarine1", 127, 255, 212),
  ("aquamarine2", 118, 238, 198),
  ("aquamarine3", 102, 205, 170),
  ("aquamarine4", 69, 139, 116),
  ("azure", 240, 255, 255),
  ("azure1", 240, 255, 255),
  ("azure3", 193, 205, 205),
  ("azure2", 224, 238, 238),
  ("azure4", 131, 139, 139),
  ("beige", 245, 245, 220),
  ("bisque", 255, 228, 196),
  ("bisque1", 255, 228, 196),
  ("bisque2", 238, 213, 183),
  ("bisque3", 205, 183, 158),
  ("bisque4", 139, 125, 107),
  ("black", 0, 0, 0),
  ("blanched-almond", 255, 235, 205),
  ("blue", 0, 0, 255),
  ("blue1", 0, 0, 255),
  ("blue2", 0, 0, 238),
  ("blue3", 0, 0, 205),
  ("blue4", 0, 0, 139),
  ("blue-violet", 138, 43, 226),
  ("brown", 165, 42, 42),
  ("brown1", 255, 64, 64),
  ("brown2", 238, 59, 59),
  ("brown3", 205, 51, 51),
  ("brown4", 139, 35, 35),
  ("burly-wood", 222, 184, 135),
  ("burly-wood1", 255, 211, 155),
  ("burly-wood2", 238, 197, 145),
  ("burly-wood3", 205, 170, 125),
  ("burly-wood4", 139, 115, 85),
  ("cadet-blue", 95, 158, 160),
  ("cadet-blue1", 152, 245, 255),
  ("cadet-blue2", 142, 229, 238),
  ("cadet-blue3", 122, 197, 205),
  ("cadet-blue4", 83, 134, 139),
  ("chartreuse", 127, 255, 0),
  ("chartreuse1", 127, 255, 0),
  ("chartreuse2", 118, 238, 0),
  ("chartreuse3", 102, 205, 0),
  ("chartreuse4", 69, 139, 0),
  ("chocolate", 210, 105, 30),
  ("chocolate1", 255, 127, 36),
  ("chocolate2", 238, 118, 33),
  ("chocolate3", 205, 102, 29),
  ("chocolate4", 139, 69, 19),
  ("coral", 255, 127, 80),
  ("coral1", 255, 114, 86),
  ("coral2", 238, 106, 80),
  ("coral3", 205, 91, 69),
  ("coral4", 139, 62, 47),
  ("corn-flower-blue", 100, 149, 237),
  ("corn-silk", 255, 248, 220),
  ("corn-silk1", 255, 248, 220),
  ("corn-silk2", 238, 232, 205),
  ("corn-silk3", 205, 200, 177),
  ("corn-silk4", 139, 136, 120),
  ("crimson", 220, 20, 60),
  ("cyan", 0, 255, 255),
  ("cyan1", 0, 255, 255),
  ("cyan2", 0, 238, 238),
  ("cyan3", 0, 205, 205),
  ("cyan4", 0, 139, 139),
  ("dark-blue", 0, 0, 139),
  ("dark-cyan", 0, 139, 139),
  ("dark-goldenrod", 184, 134, 11),
  ("dark-goldenrod1", 255, 185, 15),
  ("dark-goldenrod2", 238, 173, 14),
  ("dark-goldenrod3", 205, 149, 12),
  ("dark-goldenrod4", 139, 101, 8),
  ("dark-gray", 169, 169, 169),
  ("dark-green", 0, 100, 0),
  ("dark-grey", 169, 169, 169),
  ("dark-khaki", 189, 183, 107),
  ("dark-magenta", 139, 0, 139),
  ("dark-olive-green", 85, 107, 47),
  ("dark-olive-green1", 202, 255, 112),
  ("dark-olive-green2", 188, 238, 104),
  ("dark-olive-green3", 162, 205, 90),
  ("dark-olive-green4", 110, 139, 61),
  ("dark-orange", 255, 140, 0),
  ("dark-orange1", 255, 127, 0),
  ("dark-orange2", 238, 118, 0),
  ("dark-orange3", 205, 102, 0),
  ("dark-orange4", 139, 69, 0),
  ("dark-orchid", 153, 50, 204),
  ("dark-orchid1", 191, 62, 255),
  ("dark-orchid2", 178, 58, 238),
  ("dark-orchid3", 154, 50, 205),
  ("dark-orchid4", 104, 34, 139),
  ("dark-red", 139, 0, 0),
  ("dark-salmon", 233, 150, 122),
  ("dark-sea-green", 143, 188, 143),
  ("dark-sea-green1", 193, 255, 193),
  ("dark-sea-green2", 180, 238, 180),
  ("dark-sea-green3", 155, 205, 155),
  ("dark-sea-green4", 105, 139, 105),
  ("dark-slate-blue", 72, 61, 139),
  ("dark-slate-gray", 47, 79, 79),
  ("dark-slate-gray1", 151, 255, 255),
  ("dark-slate-gray2", 141, 238, 238),
  ("dark-slate-gray3", 121, 205, 205),
  ("dark-slate-gray4", 82, 139, 139),
  ("dark-slate-grey", 47, 79, 79),
  ("dark-turquoise", 0, 206, 209),
  ("dark-violet", 148, 0, 211),
  ("deep-pink", 255, 20, 147),
  ("deep-pink1", 255, 20, 147),
  ("deep-pink2", 238, 18, 137),
  ("deep-pink3", 205, 16, 118),
  ("deep-pink4", 139, 10, 80),
  ("deep-sky-blue", 0, 191, 255),
  ("deep-sky-blue1", 0, 191, 255),
  ("deep-sky-blue2", 0, 178, 238),
  ("deep-sky-blue3", 0, 154, 205),
  ("deep-sky-blue4", 0, 104, 139),
  ("dim-gray", 105, 105, 105),
  ("dim-grey", 105, 105, 105),
  ("dodger-blue", 30, 144, 255),
  ("dodger-blue1", 30, 144, 255),
  ("dodger-blue2", 28, 134, 238),
  ("dodger-blue3", 24, 116, 205),
  ("dodger-blue4", 16, 78, 139),
  ("firebrick", 178, 34, 34),
  ("firebrick1", 255, 48, 48),
  ("firebrick2", 238, 44, 44),
  ("firebrick3", 205, 38, 38),
  ("firebrick4", 139, 26, 26),
  ("floral-white", 255, 250, 240),
  ("forest-green", 34, 139, 34),
  ("fuchsia", 255, 0, 255),
  ("gainsboro", 220, 220, 220),
  ("ghost-white", 248, 248, 255),
  ("gold", 255, 215, 0),
  ("gold1", 255, 215, 0),
  ("gold2", 238, 201, 0),
  ("gold3", 205, 173, 0),
  ("gold4", 139, 117, 0),
  ("goldenrod", 218, 165, 32),
  ("goldenrod1", 255, 193, 37),
  ("goldenrod2", 238, 180, 34),
  ("goldenrod3", 205, 155, 29),
  ("goldenrod4", 139, 105, 20),
  ("gray", 190, 190, 190),
  ("gray0", 0, 0, 0),
  ("gray1", 3, 3, 3),
  ("gray2", 5, 5, 5),
  ("gray3", 8, 8, 8),
  ("gray4", 10, 10, 10),
  ("gray5", 13, 13, 13),
  ("gray6", 15, 15, 15),
  ("gray7", 18, 18, 18),
  ("gray8", 20, 20, 20),
  ("gray9", 23, 23, 23),
  ("gray10", 26, 26, 26),
  ("gray11", 28, 28, 28),
  ("gray12", 31, 31, 31),
  ("gray13", 33, 33, 33),
  ("gray14", 36, 36, 36),
  ("gray15", 38, 38, 38),
  ("gray16", 41, 41, 41),
  ("gray17", 43, 43, 43),
  ("gray18", 46, 46, 46),
  ("gray19", 48, 48, 48),
  ("gray20", 51, 51, 51),
  ("gray21", 54, 54, 54),
  ("gray22", 56, 56, 56),
  ("gray23", 59, 59, 59),
  ("gray24", 61, 61, 61),
  ("gray25", 64, 64, 64),
  ("gray26", 66, 66, 66),
  ("gray27", 69, 69, 69),
  ("gray28", 71, 71, 71),
  ("gray29", 74, 74, 74),
  ("gray30", 77, 77, 77),
  ("gray31", 79, 79, 79),
  ("gray32", 82, 82, 82),
  ("gray33", 84, 84, 84),
  ("gray34", 87, 87, 87),
  ("gray35", 89, 89, 89),
  ("gray36", 92, 92, 92),
  ("gray37", 94, 94, 94),
  ("gray38", 97, 97, 97),
  ("gray39", 99, 99, 99),
  ("gray40", 102, 102, 102),
  ("gray41", 105, 105, 105),
  ("gray42", 107, 107, 107),
  ("gray43", 110, 110, 110),
  ("gray44", 112, 112, 112),
  ("gray45", 115, 115, 115),
  ("gray46", 117, 117, 117),
  ("gray47", 120, 120, 120),
  ("gray48", 122, 122, 122),
  ("gray49", 125, 125, 125),
  ("gray50", 127, 127, 127),
  ("gray51", 130, 130, 130),
  ("gray52", 133, 133, 133),
  ("gray53", 135, 135, 135),
  ("gray54", 138, 138, 138),
  ("gray55", 140, 140, 140),
  ("gray56", 143, 143, 143),
  ("gray57", 145, 145, 145),
  ("gray58", 148, 148, 148),
  ("gray59", 150, 150, 150),
  ("gray60", 153, 153, 153),
  ("gray61", 156, 156, 156),
  ("gray62", 158, 158, 158),
  ("gray63", 161, 161, 161),
  ("gray64", 163, 163, 163),
  ("gray65", 166, 166, 166),
  ("gray66", 168, 168, 168),
  ("gray67", 171, 171, 171),
  ("gray68", 173, 173, 173),
  ("gray69", 176, 176, 176),
  ("gray70", 179, 179, 179),
  ("gray71", 181, 181, 181),
  ("gray72", 184, 184, 184),
  ("gray73", 186, 186, 186),
  ("gray74", 189, 189, 189),
  ("gray75", 191, 191, 191),
  ("gray76", 194, 194, 194),
  ("gray77", 196, 196, 196),
  ("gray78", 199, 199, 199),
  ("gray79", 201, 201, 201),
  ("gray80", 204, 204, 204),
  ("gray81", 207, 207, 207),
  ("gray82", 209, 209, 209),
  ("gray83", 212, 212, 212),
  ("gray84", 214, 214, 214),
  ("gray85", 217, 217, 217),
  ("gray86", 219, 219, 219),
  ("gray87", 222, 222, 222),
  ("gray88", 224, 224, 224),
  ("gray89", 227, 227, 227),
  ("gray90", 229, 229, 229),
  ("gray91", 232, 232, 232),
  ("gray92", 235, 235, 235),
  ("gray93", 237, 237, 237),
  ("gray94", 240, 240, 240),
  ("gray95", 242, 242, 242),
  ("gray96", 245, 245, 245),
  ("gray97", 247, 247, 247),
  ("gray98", 250, 250, 250),
  ("gray99", 252, 252, 252),
  ("gray100", 255, 255, 255),
  ("green", 0, 255, 0),
  ("green1", 0, 255, 0),
  ("green2", 0, 238, 0),
  ("green3", 0, 205, 0),
  ("green4", 0, 139, 0),
  ("green-yellow", 173, 255, 47),
  ("grey", 190, 190, 190),
  ("grey0", 0, 0, 0),
  ("grey1", 3, 3, 3),
  ("grey2", 5, 5, 5),
  ("grey3", 8, 8, 8),
  ("grey4", 10, 10, 10),
  ("grey5", 13, 13, 13),
  ("grey6", 15, 15, 15),
  ("grey7", 18, 18, 18),
  ("grey8", 20, 20, 20),
  ("grey9", 23, 23, 23),
  ("grey10", 26, 26, 26),
  ("grey11", 28, 28, 28),
  ("grey12", 31, 31, 31),
  ("grey13", 33, 33, 33),
  ("grey14", 36, 36, 36),
  ("grey15", 38, 38, 38),
  ("grey16", 41, 41, 41),
  ("grey17", 43, 43, 43),
  ("grey18", 46, 46, 46),
  ("grey19", 48, 48, 48),
  ("grey20", 51, 51, 51),
  ("grey21", 54, 54, 54),
  ("grey22", 56, 56, 56),
  ("grey23", 59, 59, 59),
  ("grey24", 61, 61, 61),
  ("grey25", 64, 64, 64),
  ("grey26", 66, 66, 66),
  ("grey27", 69, 69, 69),
  ("grey28", 71, 71, 71),
  ("grey29", 74, 74, 74),
  ("grey30", 77, 77, 77),
  ("grey31", 79, 79, 79),
  ("grey32", 82, 82, 82),
  ("grey33", 84, 84, 84),
  ("grey34", 87, 87, 87),
  ("grey35", 89, 89, 89),
  ("grey36", 92, 92, 92),
  ("grey37", 94, 94, 94),
  ("grey38", 97, 97, 97),
  ("grey39", 99, 99, 99),
  ("grey40", 102, 102, 102),
  ("grey41", 105, 105, 105),
  ("grey42", 107, 107, 107),
  ("grey43", 110, 110, 110),
  ("grey44", 112, 112, 112),
  ("grey45", 115, 115, 115),
  ("grey46", 117, 117, 117),
  ("grey47", 120, 120, 120),
  ("grey48", 122, 122, 122),
  ("grey49", 125, 125, 125),
  ("grey50", 127, 127, 127),
  ("grey51", 130, 130, 130),
  ("grey52", 133, 133, 133),
  ("grey53", 135, 135, 135),
  ("grey54", 138, 138, 138),
  ("grey55", 140, 140, 140),
  ("grey56", 143, 143, 143),
  ("grey57", 145, 145, 145),
  ("grey58", 148, 148, 148),
  ("grey59", 150, 150, 150),
  ("grey60", 153, 153, 153),
  ("grey61", 156, 156, 156),
  ("grey62", 158, 158, 158),
  ("grey63", 161, 161, 161),
  ("grey64", 163, 163, 163),
  ("grey65", 166, 166, 166),
  ("grey66", 168, 168, 168),
  ("grey67", 171, 171, 171),
  ("grey68", 173, 173, 173),
  ("grey69", 176, 176, 176),
  ("grey70", 179, 179, 179),
  ("grey71", 181, 181, 181),
  ("grey72", 184, 184, 184),
  ("grey73", 186, 186, 186),
  ("grey74", 189, 189, 189),
  ("grey75", 191, 191, 191),
  ("grey76", 194, 194, 194),
  ("grey77", 196, 196, 196),
  ("grey78", 199, 199, 199),
  ("grey79", 201, 201, 201),
  ("grey80", 204, 204, 204),
  ("grey81", 207, 207, 207),
  ("grey82", 209, 209, 209),
  ("grey83", 212, 212, 212),
  ("grey84", 214, 214, 214),
  ("grey85", 217, 217, 217),
  ("grey86", 219, 219, 219),
  ("grey87", 222, 222, 222),
  ("grey88", 224, 224, 224),
  ("grey89", 227, 227, 227),
  ("grey90", 229, 229, 229),
  ("grey91", 232, 232, 232),
  ("grey92", 235, 235, 235),
  ("grey93", 237, 237, 237),
  ("grey94", 240, 240, 240),
  ("grey95", 242, 242, 242),
  ("grey96", 245, 245, 245),
  ("grey97", 247, 247, 247),
  ("grey98", 250, 250, 250),
  ("grey99", 252, 252, 252),
  ("grey100", 255, 255, 255),
  ("honeydew", 240, 255, 240),
  ("honeydew1", 240, 255, 240),
  ("honeydew2", 224, 238, 224),
  ("honeydew3", 193, 205, 193),
  ("honeydew4", 131, 139, 131),
  ("hot-pink", 255, 105, 180),
  ("hot-pink1", 255, 110, 180),
  ("hot-pink2", 238, 106, 167),
  ("hot-pink3", 205, 96, 144),
  ("hot-pink4", 139, 58, 98),
  ("indian-red", 205, 92, 92),
  ("indian-red1", 255, 106, 106),
  ("indian-red2", 238, 99, 99),
  ("indian-red3", 205, 85, 85),
  ("indian-red4", 139, 58, 58),
  ("indigo", 75, 0, 130),
  ("ivory", 255, 255, 240),
  ("ivory1", 255, 255, 240),
  ("ivory2", 238, 238, 224),
  ("ivory3", 205, 205, 193),
  ("ivory4", 139, 139, 131),
  ("khaki", 240, 230, 140),
  ("khaki1", 255, 246, 143),
  ("khaki2", 238, 230, 133),
  ("khaki3", 205, 198, 115),
  ("khaki4", 139, 134, 78),
  ("lavender", 230, 230, 250),
  ("lavender-blush", 255, 240, 245),
  ("lavender-blush1", 255, 240, 245),
  ("lavender-blush2", 238, 224, 229),
  ("lavender-blush3", 205, 193, 197),
  ("lavender-blush4", 139, 131, 134),
  ("lawn-green", 124, 252, 0),
  ("lemon-chiffon", 255, 250, 205),
  ("lemon-chiffon1", 255, 250, 205),
  ("lemon-chiffon2", 238, 233, 191),
  ("lemon-chiffon3", 205, 201, 165),
  ("lemon-chiffon4", 139, 137, 112),
  ("light-blue", 173, 216, 230),
  ("light-blue1", 191, 239, 255),
  ("light-blue2", 178, 223, 238),
  ("light-blue3", 154, 192, 205),
  ("light-blue4", 104, 131, 139),
  ("light-coral", 240, 128, 128),
  ("light-cyan", 224, 255, 255),
  ("light-cyan1", 224, 255, 255),
  ("light-cyan2", 209, 238, 238),
  ("light-cyan3", 180, 205, 205),
  ("light-cyan4", 122, 139, 139),
  ("light-goldenrod", 238, 221, 130),
  ("light-goldenrod1", 255, 236, 139),
  ("light-goldenrod2", 238, 220, 130),
  ("light-goldenrod3", 205, 190, 112),
  ("light-goldenrod4", 139, 129, 76),
  ("light-golden-rod-yellow", 250, 250, 210),
  ("light-gray", 211, 211, 211),
  ("light-green", 144, 238, 144),
  ("light-grey", 211, 211, 211),
  ("light-pink", 255, 182, 193),
  ("light-pink1", 255, 174, 185),
  ("light-pink2", 238, 162, 173),
  ("light-pink3", 205, 140, 149),
  ("light-pink4", 139, 95, 101),
  ("light-salmon", 255, 160, 122),
  ("light-salmon1", 255, 160, 122),
  ("light-salmon2", 238, 149, 114),
  ("light-salmon3", 205, 129, 98),
  ("light-salmon4", 139, 87, 66),
  ("light-sea-green", 32, 178, 170),
  ("light-sky-blue", 135, 206, 250),
  ("light-sky-blue1", 176, 226, 255),
  ("light-sky-blue2", 164, 211, 238),
  ("light-sky-blue3", 141, 182, 205),
  ("light-sky-blue4", 96, 123, 139),
  ("light-slate-blue", 132, 112, 255),
  ("light-slate-gray", 119, 136, 153),
  ("light-slate-grey", 119, 136, 153),
  ("light-steel-blue", 176, 196, 222),
  ("light-steel-blue1", 202, 225, 255),
  ("light-steel-blue2", 188, 210, 238),
  ("light-steel-blue3", 162, 181, 205),
  ("light-steel-blue4", 110, 123, 139),
  ("light-yellow", 255, 255, 224),
  ("light-yellow1", 255, 255, 224),
  ("light-yellow2", 238, 238, 209),
  ("light-yellow3", 205, 205, 180),
  ("light-yellow4", 139, 139, 122),
  ("linen", 250, 240, 230),
  ("lime", 0, 255, 0),
  ("lime-green", 50, 205, 50),
  ("magenta", 255, 0, 255),
  ("magenta1", 255, 0, 255),
  ("magenta2", 238, 0, 238),
  ("magenta3", 205, 0, 205),
  ("magenta4", 139, 0, 139),
  ("maroon", 176, 48, 96),
  ("maroon1", 255, 52, 179),
  ("maroon2", 238, 48, 167),
  ("maroon3", 205, 41, 144),
  ("maroon4", 139, 28, 98),
  ("medium-aquamarine", 102, 205, 170),
  ("medium-blue", 0, 0, 205),
  ("medium-orchid", 186, 85, 211),
  ("medium-orchid1", 224, 102, 255),
  ("medium-orchid2", 209, 95, 238),
  ("medium-orchid3", 180, 82, 205),
  ("medium-orchid4", 122, 55, 139),
  ("medium-purple", 147, 112, 219),
  ("medium-purple1", 171, 130, 255),
  ("medium-purple2", 159, 121, 238),
  ("medium-purple3", 137, 104, 205),
  ("medium-purple4", 93, 71, 139),
  ("medium-sea-green", 60, 179, 113),
  ("medium-slate-blue", 123, 104, 238),
  ("medium-spring-green", 0, 250, 154),
  ("medium-turquoise", 72, 209, 204),
  ("medium-violet-red", 199, 21, 133),
  ("midnight-blue", 25, 25, 112),
  ("mint-cream", 245, 255, 250),
  ("misty-rose", 255, 228, 225),
  ("misty-rose1", 255, 228, 225),
  ("misty-rose2", 238, 213, 210),
  ("misty-rose3", 205, 183, 181),
  ("misty-rose4", 139, 125, 123),
  ("moccasin", 255, 228, 181),
  ("navajo-white", 255, 222, 173),
  ("navajo-white1", 255, 222, 173),
  ("navajo-white2", 238, 207, 161),
  ("navajo-white3", 205, 179, 139),
  ("navajo-white4", 139, 121, 94),
  ("navy", 0, 0, 128),
  ("navy-blue", 0, 0, 128),
  ("old-lace", 253, 245, 230),
  ("olive", 128, 128, 0),
  ("olive-drab", 107, 142, 35),
  ("olive-drab1", 192, 255, 62),
  ("olive-drab2", 179, 238, 58),
  ("olive-drab3", 154, 205, 50),
  ("olive-drab4", 105, 139, 34),
  ("orange", 255, 165, 0),
  ("orange1", 255, 165, 0),
  ("orange2", 238, 154, 0),
  ("orange3", 205, 133, 0),
  ("orange4", 139, 90, 0),
  ("orange-red", 255, 69, 0),
  ("orange-red1", 255, 69, 0),
  ("orange-red2", 238, 64, 0),
  ("orange-red3", 205, 55, 0),
  ("orange-red4", 139, 37, 0),
  ("orchid", 218, 112, 214),
  ("orchid1", 255, 131, 250),
  ("orchid2", 238, 122, 233),
  ("orchid3", 205, 105, 201),
  ("orchid4", 139, 71, 137),
  ("pale-green", 152, 251, 152),
  ("pale-green1", 154, 255, 154),
  ("pale-green2", 144, 238, 144),
  ("pale-green3", 124, 205, 124),
  ("pale-green4", 84, 139, 84),
  ("pale-goldenrod", 238, 232, 170),
  ("pale-turquoise", 175, 238, 238),
  ("pale-turquoise1", 187, 255, 255),
  ("pale-turquoise2", 174, 238, 238),
  ("pale-turquoise3", 150, 205, 205),
  ("pale-turquoise4", 102, 139, 139),
  ("pale-violet-red", 219, 112, 147),
  ("pale-violet-red1", 255, 130, 171),
  ("pale-violet-red2", 238, 121, 159),
  ("pale-violet-red3", 205, 104, 137),
  ("pale-violet-red4", 139, 71, 93),
  ("papaya-whip", 255, 239, 213),
  ("peach-puff", 255, 218, 185),
  ("peach-puff1", 255, 218, 185),
  ("peach-puff2", 238, 203, 173),
  ("peach-puff3", 205, 175, 149),
  ("peach-puff4", 139, 119, 101),
  ("peru", 205, 133, 63),
  ("pink", 255, 192, 203),
  ("pink1", 255, 181, 197),
  ("pink2", 238, 169, 184),
  ("pink3", 205, 145, 158),
  ("pink4", 139, 99, 108),
  ("plum", 221, 160, 221),
  ("plum1", 255, 187, 255),
  ("plum2", 238, 174, 238),
  ("plum3", 205, 150, 205),
  ("plum4", 139, 102, 139),
  ("powder-blue", 176, 224, 230),
  ("purple", 160, 32, 240),
  ("purple1", 155, 48, 255),
  ("purple2", 145, 44, 238),
  ("purple3", 125, 38, 205),
  ("purple4", 85, 26, 139),
  ("red", 255, 0, 0),
  ("red1", 255, 0, 0),
  ("red2", 238, 0, 0),
  ("red3", 205, 0, 0),
  ("red4", 139, 0, 0),
  ("rosy-brown", 188, 143, 143),
  ("rosy-brown1", 255, 193, 193),
  ("rosy-brown2", 238, 180, 180),
  ("rosy-brown3", 205, 155, 155),
  ("rosy-brown4", 139, 105, 105),
  ("royal-blue", 65, 105, 225),
  ("royal-blue1", 72, 118, 255),
  ("royal-blue2", 67, 110, 238),
  ("royal-blue3", 58, 95, 205),
  ("royal-blue4", 39, 64, 139),
  ("salmon", 250, 128, 114),
  ("salmon1", 255, 140, 105),
  ("salmon2", 238, 130, 98),
  ("salmon3", 205, 112, 84),
  ("salmon4", 139, 76, 57),
  ("saddle-brown", 139, 69, 19),
  ("sandy-brown", 244, 164, 96),
  ("sea-green", 46, 139, 87),
  ("sea-green1", 84, 255, 159),
  ("sea-green2", 78, 238, 148),
  ("sea-green3", 67, 205, 128),
  ("sea-green4", 46, 139, 87),
  ("seashell", 255, 245, 238),
  ("seashell1", 255, 245, 238),
  ("seashell2", 238, 229, 222),
  ("seashell3", 205, 197, 191),
  ("seashell4", 139, 134, 130),
  ("sienna", 160, 82, 45),
  ("sienna1", 255, 130, 71),
  ("sienna2", 238, 121, 66),
  ("sienna3", 205, 104, 57),
  ("sienna4", 139, 71, 38),
  ("silver", 192, 192, 192),
  ("sky-blue", 135, 206, 235),
  ("sky-blue1", 135, 206, 255),
  ("sky-blue2", 126, 192, 238),
  ("sky-blue3", 108, 166, 205),
  ("sky-blue4", 74, 112, 139),
  ("slate-blue", 106, 90, 205),
  ("slate-blue1", 131, 111, 255),
  ("slate-blue2", 122, 103, 238),
  ("slate-blue3", 105, 89, 205),
  ("slate-blue4", 71, 60, 139),
  ("slate-gray", 112, 128, 144),
  ("slate-gray1", 198, 226, 255),
  ("slate-gray2", 185, 211, 238),
  ("slate-gray3", 159, 182, 205),
  ("slate-gray4", 108, 123, 139),
  ("slate-grey", 112, 128, 144),
  ("snow", 255, 250, 250),
  ("snow1", 255, 250, 250),
  ("snow2", 238, 233, 233),
  ("snow3", 205, 201, 201),
  ("snow4", 139, 137, 137),
  ("spring-green", 0, 255, 127),
  ("spring-green1", 0, 255, 127),
  ("spring-green2", 0, 238, 118),
  ("spring-green3", 0, 205, 102),
  ("spring-green4", 0, 139, 69),
  ("steel-blue", 70, 130, 180),
  ("steel-blue1", 99, 184, 255),
  ("steel-blue2", 92, 172, 238),
  ("steel-blue3", 79, 148, 205),
  ("steel-blue4", 54, 100, 139),
  ("tan", 210, 180, 140),
  ("tan1", 255, 165, 79),
  ("tan2", 238, 154, 73),
  ("tan3", 205, 133, 63),
  ("tan4", 139, 90, 43),
  ("teal", 0, 128, 128),
  ("thistle", 216, 191, 216),
  ("thistle1", 255, 225, 255),
  ("thistle2", 238, 210, 238),
  ("thistle3", 205, 181, 205),
  ("thistle4", 139, 123, 139),
  ("tomato", 255, 99, 71),
  ("tomato1", 255, 99, 71),
  ("tomato2", 238, 92, 66),
  ("tomato3", 205, 79, 57),
  ("tomato4", 139, 54, 38),
  ("turquoise", 64, 224, 208),
  ("turquoise1", 0, 245, 255),
  ("turquoise2", 0, 229, 238),
  ("turquoise3", 0, 197, 205),
  ("turquoise4", 0, 134, 139),
  ("violet", 238, 130, 238),
  ("violet-red", 208, 32, 144),
  ("violet-red1", 255, 62, 150),
  ("violet-red2", 238, 58, 140),
  ("violet-red3", 205, 50, 120),
  ("violet-red4", 139, 34, 82),
  ("wheat", 245, 222, 179),
  ("wheat1", 255, 231, 186),
  ("wheat2", 238, 216, 174),
  ("wheat3", 205, 186, 150),
  ("wheat4", 139, 126, 102),
  ("white", 255, 255, 255),
  ("white-smoke", 245, 245, 245),
  ("yellow", 255, 255, 0),
  ("yellow1", 255, 255, 0),
  ("yellow2", 238, 238, 0),
  ("yellow3", 205, 205, 0),
  ("yellow4", 139, 139, 0),
  ("yellow-green", 154, 205, 50)
]

/-- Code-point lexicographic "less than" on character lists, the string
comparison of Python. -/
def lexLt : List Char → List Char → Bool
  | _, [] => false
  | [], _ :: _ => true
  | a :: as, b :: bs =>
    if a.toNat < b.toNat then true
    else if b.toNat < a.toNat then false
    else lexLt as bs

/-- The Python comparison `s <= t` on strings (code-point lexicographic order). -/
def pyStrLe (s t : String) : Prop := lexLt t.data s.data = false

/-- Key order used by `dict(sorted(_PRE_DEFINED_COLORS.items()))`: Python
sorts the `(name, color)` tuples, which compares the names first and
would compare the colors only on equal names (the table names are
pairwise distinct, so tuple comparison never reaches the colors). -/
def tableLe (p q : String × Color) : Prop := pyStrLe p.1 q.1

instance : DecidableRel tableLe := fun p q =>
  inferInstanceAs (Decidable (lexLt q.1.data p.1.data = false))

/-- The table entries as `(name, color)` pairs in source order; each
value is the `Color.from_rgb` result on the byte triple of the entry. -/
def predefPairs : List (String × Color) :=
  rawColorTable.map (fun e => (e.1, byteColor (e.2.1 : ℤ) (e.2.2.1 : ℤ) (e.2.2.2 : ℤ)))

/-- Embedding of the final `_PRE_DEFINED_COLORS` dict, after the
`_PRE_DEFINED_COLORS = dict(sorted(_PRE_DEFINED_COLORS.items()))`
normalization: the pairs, stably sorted by name. -/
def _PRE_DEFINED_COLORS : List (String × Color) :=
  List.insertionSort tableLe predefPairs

/-- Embedding of `dict.get` on a pair list built by insertion: the value
of the last pair with the given key, if any (later duplicates win). -/
def pyDictGet (ps : List (String × Color)) (k : String) : Option Color :=
  ((ps.filter (fun p => p.1 == k)).getLast?).map (fun p => p.2)

/-- Keys of a Python dict built by inserting a pair list in order: first
occurrence of each key, in insertion order. -/
def dedupFirst : List String → List String
  | [] => []
  | x :: xs => x :: dedupFirst (xs.filter (fun y => !(y == x)))
termination_by l => l.length
decreasing_by
  simp only [List.length_cons]
  exact Nat.lt_succ_of_le (List.length_filter_le _ _)

/-- Embedding of `list(dict.keys())` for a dict built from a pair list. -/
def pyDictKeys (ps : List (String × Color)) : List String :=
  dedupFirst (ps.map (fun p => p.1))

/-- Embedding of `Color.names`. -/
def Color.names : List String := pyDictKeys _PRE_DEFINED_COLORS

/-- Embedding of the string branch of `Color.create`: named-color lookup,
then HTML syntax, then hex-literal syntax, then `ValueError` (the format
kind), in this order. -/
def Color.createString (s : String) : Except ColorError Color :=
  match pyDictGet _PRE_DEFINED_COLORS s with
  | some c => .ok c
  | none =>
    match Color._parse_html_color s with
    | .error e => .error e
    | .ok (some c) => .ok c
    | .ok none =>
      match Color._parse_hex_color s with
      | .error e => .error e
      | .ok (some c) => .ok c
      | .ok none =>
        .error (.invalidColorFormat
          ("Invalid string format for color: \x27" ++ s ++ "\x27"))

/-- The `ColorLike` input union of `Color.create` (`Color | str |
BytesLike | int | Sequence[float]`), as a tagged variant on the runtime
type Python dispatches on; `float` is a value of any unsupported type
(such as the literal `3.5`), which falls through every `isinstance`
check to the final `TypeError`. -/
inductive ColorLike
  | color (c : Color)
  | str (s : String)
  | bytes (bs : List ℕ)
  | int (n : ℤ)
  | seq (xs : List ℚ)
  | float (x : ℚ)

/-- Embedding of `Color.create`: dispatch on the runtime type of the
input (`Color`, `str`, `BytesLike`, `int`, `Sequence`, otherwise
`TypeError`), in the `isinstance` order of the source. -/
def Color.create : ColorLike → Except ColorError Color
  | .color c => .ok c
  | .str s => Color.createString s
  | .bytes bs => Color.from_bytes bs
  | .int n => Color.from_int n
  | .seq xs =>
    match xs with
    | [r, g, b] => Color.mk? r g b 1
    | [r, g, b, a] => Color.mk? r g b a
    | _ => .error (.invalidColorFormat "Sequence must be of length 3 (RGB) or 4 (RGBA)")
  | .float _ => .error .unsupportedColorType

/-- All four channels of a color lie in `[0, 1]`. -/
def Color.normalizedRange (c : Color) : Prop :=
  0 ≤ c.red ∧ c.red ≤ 1 ∧ 0 ≤ c.green ∧ c.green ≤ 1 ∧
    0 ≤ c.blue ∧ c.blue ≤ 1 ∧ 0 ≤ c.alpha ∧ c.alpha ≤ 1

/-- A `create` input is well formed when, if it is itself a `Color`, that
color satisfies the range invariant (in Python every live `Color` does,
since the constructor enforces it; the Lean `Color` structure can also
denote raw field tuples, so the invariant on inputs is a hypothesis). -/
def ColorLike.wellFormedColorArg : ColorLike → Prop
  | .color c => c.normalizedRange
  | _ => True

/-! ### Helper lemmas -/

theorem lexLt_asymm : ∀ as bs : List Char, lexLt as bs = true → lexLt bs as = false := by
  intro as
  induction as with
  | nil => intro bs h; cases bs <;> simp [lexLt] at *
  | cons a as ih =>
    intro bs h
    cases bs with
    | nil => simp [lexLt] at h
    | cons b bs' =>
      simp only [lexLt] at h ⊢
      split_ifs at h ⊢ <;> first | rfl | omega | exact ih bs' h

theorem lexLt_lt_of_lt_of_nlt :
    ∀ as bs cs : List Char, lexLt as bs = true → lexLt cs bs = false → lexLt as cs = true := by
  intro as
  induction as with
  | nil =>
    intro bs cs h h2
    cases bs with
    | nil => simp [lexLt] at h
    | cons b bs' =>
      cases cs with
      | nil => simp [lexLt] at h2
      | cons c cs' => simp [lexLt]
  | cons a as ih =>
    intro bs cs h h2
    cases bs with
    | nil => simp [lexLt] at h
    | cons b bs' =>
      cases cs with
      | nil => simp [lexLt] at h2
      | cons c cs' =>
        simp only [lexLt] at h h2 ⊢
        split_ifs at h h2 ⊢ <;> first | rfl | omega | exact ih bs' cs' h h2

theorem tableLe_total : ∀ p q : String × Color, tableLe p q ∨ tableLe q p := by
  intro p q
  unfold tableLe pyStrLe
  cases h : lexLt q.1.data p.1.data with
  | false => exact Or.inl rfl
  | true => exact Or.inr (lexLt_asymm _ _ h)

theorem tableLe_trans :
    ∀ p q r : String × Color, tableLe p q → tableLe q r → tableLe p r := by
  intro p q r hpq hqr
  unfold tableLe pyStrLe at *
  cases h : lexLt r.1.data p.1.data with
  | false => rfl
  | true =>
    exact absurd (lexLt_lt_of_lt_of_nlt _ _ _ h hpq) (by rw [hqr]; simp)

theorem dedupFirst_sublist : ∀ l : List String, (dedupFirst l).Sublist l := by
  intro l
  induction l using dedupFirst.induct with
  | case1 => simp [dedupFirst]
  | case2 x xs ih =>
    rw [dedupFirst]
    exact (ih.trans (List.filter_sublist xs)).cons₂ x

theorem mem_dedupFirst : ∀ (l : List String) (k : String), k ∈ dedupFirst l ↔ k ∈ l := by
  intro l
  induction l using dedupFirst.induct with
  | case1 => simp [dedupFirst]
  | case2 x xs ih =>
    intro k
    rw [dedupFirst]
    simp only [List.mem_cons, ih, List.mem_filter]
    constructor
    · rintro (h | ⟨h, _⟩)
      · exact Or.inl h
      · exact Or.inr h
    · rintro (h | h)
      · exact Or.inl h
      · by_cases hk : k = x
        · exact Or.inl hk
        · exact Or.inr ⟨h, by simp [hk]⟩

theorem pyRound_intCast (n : ℤ) : pyRound (n : ℚ) = n := by
  simp [pyRound, Int.floor_intCast]

theorem mul255_div255 (x : ℚ) : 255 * (x / 255) = x := by
  field_simp

theorem mk?_ok (r g b a : ℚ) (c : Color) (h : Color.mk? r g b a = .ok c) :
    c.normalizedRange ∧ c = ⟨r, g, b, a⟩ := by
  unfold Color.mk? at h
  split at h
  · cases h
    exact ⟨by assumption, rfl⟩
  · cases h

theorem mk?_eq_ok (r g b a : ℚ)
    (h : 0 ≤ r ∧ r ≤ 1 ∧ 0 ≤ g ∧ g ≤ 1 ∧ 0 ≤ b ∧ b ≤ 1 ∧ 0 ≤ a ∧ a ≤ 1) :
    Color.mk? r g b a = .ok ⟨r, g, b, a⟩ := by
  unfold Color.mk?
  exact if_pos h

theorem mk?_eq_err (r g b a : ℚ)
    (h : ¬ (0 ≤ r ∧ r ≤ 1 ∧ 0 ≤ g ∧ g ≤ 1 ∧ 0 ≤ b ∧ b ≤ 1 ∧ 0 ≤ a ∧ a ≤ 1)) :
    Color.mk? r g b a =
      .error (.invalidColorValue "RGBA coordinates must be normalized (between 0 and 1)") := by
  unfold Color.mk?
  exact if_neg h

theorem div255_mem (x : ℚ) (h0 : 0 ≤ x) (h1 : x ≤ 255) : 0 ≤ x / 255 ∧ x / 255 ≤ 1 :=
  ⟨div_nonneg h0 (by norm_num), (div_le_one (by norm_num)).2 h1⟩

theorem from_rgb_eq_ok (r g b : ℚ)
    (h : 0 ≤ r ∧ r ≤ 255 ∧ 0 ≤ g ∧ g ≤ 255 ∧ 0 ≤ b ∧ b ≤ 255) :
    Color.from_rgb r g b = .ok ⟨r / 255, g / 255, b / 255, 1⟩ := by
  obtain ⟨h1, h2, h3, h4, h5, h6⟩ := h
  unfold Color.from_rgb
  rw [if_pos ⟨h1, h2, h3, h4, h5, h6⟩]
  exact mk?_eq_ok _ _ _ _
    ⟨(div255_mem r h1 h2).1, (div255_mem r h1 h2).2, (div255_mem g h3 h4).1,
      (div255_mem g h3 h4).2, (div255_mem b h5 h6).1, (div255_mem b h5 h6).2,
      by norm_num, le_refl 1⟩

theorem from_rgba_eq_ok (r g b a : ℚ)
    (h : 0 ≤ r ∧ r ≤ 255 ∧ 0 ≤ g ∧ g ≤ 255 ∧ 0 ≤ b ∧ b ≤ 255 ∧ 0 ≤ a ∧ a ≤ 255) :
    Color.from_rgba r g b a = .ok ⟨r / 255, g / 255, b / 255, a / 255⟩ := by
  obtain ⟨h1, h2, h3, h4, h5, h6, h7, h8⟩ := h
  unfold Color.from_rgba
  rw [if_pos ⟨h1, h2, h3, h4, h5, h6, h7, h8⟩]
  exact mk?_eq_ok _ _ _ _
    ⟨(div255_mem r h1 h2).1, (div255_mem r h1 h2).2, (div255_mem g h3 h4).1,
      (div255_mem g h3 h4).2, (div255_mem b h5 h6).1, (div255_mem b h5 h6).2,
      (div255_mem a h7 h8).1, (div255_mem a h7 h8).2⟩

theorem from_rgb_ok (r g b : ℚ) (c : Color) (h : Color.from_rgb r g b = .ok c) :
    c.normalizedRange := by
  unfold Color.from_rgb at h
  split at h
  · exact (mk?_ok _ _ _ _ _ h).1
  · cases h

theorem from_rgba_ok (r g b a : ℚ) (c : Color) (h : Color.from_rgba r g b a = .ok c) :
    c.normalizedRange := by
  unfold Color.from_rgba at h
  split at h
  · exact (mk?_ok _ _ _ _ _ h).1
  · cases h

theorem rgba_of_byte_quadruple (r g b a : ℤ) :
    Color.rgba ⟨(r : ℚ) / 255, (g : ℚ) / 255, (b : ℚ) / 255, (a : ℚ) / 255⟩
      = (r, g, b, a) := by
  unfold Color.rgba
  simp only [mul255_div255, pyRound_intCast]

theorem nat_bytes_recompose (v : ℕ) (hv : v < 4294967296) :
    (v &&& 255) + ((v >>> 8) &&& 255) * 256 + ((v >>> 16) &&& 255) * 65536
      + ((v >>> 24) &&& 255) * 16777216 = v := by
  have e : ∀ k, v >>> k = v / 2 ^ k := fun k => Nat.shiftRight_eq_div_pow v k
  have m : ∀ w : ℕ, w &&& 255 = w % 256 := fun w => by
    have := Nat.and_pow_two_sub_one_eq_mod w 8
    simpa using this
  rw [e, e, e, m, m, m, m]
  omega

theorem map_some_ok {x : Except ColorError Color} {c : Color}
    (h : x.map some = .ok (some c)) : x = .ok c := by
  cases x with
  | ok c' =>
    simp only [Except.map] at h
    cases h
    rfl
  | error e => simp [Except.map] at h

set_option maxRecDepth 4000 in
theorem rawColorTable_bytes :
    ∀ e ∈ rawColorTable, e.2.1 ≤ 255 ∧ e.2.2.1 ≤ 255 ∧ e.2.2.2 ≤ 255 := by decide

theorem byteColor_range (r g b : ℤ)
    (h : 0 ≤ r ∧ r ≤ 255 ∧ 0 ≤ g ∧ g ≤ 255 ∧ 0 ≤ b ∧ b ≤ 255) :
    (byteColor r g b).normalizedRange := by
  obtain ⟨h1, h2, h3, h4, h5, h6⟩ := h
  have hr := div255_mem (r : ℚ) (by exact_mod_cast h1) (by exact_mod_cast h2)
  have hg := div255_mem (g : ℚ) (by exact_mod_cast h3) (by exact_mod_cast h4)
  have hb := div255_mem (b : ℚ) (by exact_mod_cast h5) (by exact_mod_cast h6)
  exact ⟨hr.1, hr.2, hg.1, hg.2, hb.1, hb.2, zero_le_one, le_refl 1⟩

theorem pyDictGet_table_mem (s : String) (c : Color)
    (h : pyDictGet _PRE_DEFINED_COLORS s = some c) :
    ∃ e ∈ rawColorTable, c = byteColor e.2.1 e.2.2.1 e.2.2.2 := by
  unfold pyDictGet at h
  obtain ⟨p, hp, hpc⟩ := Option.map_eq_some'.mp h
  have hmem := List.mem_of_mem_getLast? hp
  have hmem2 := (List.mem_filter.1 hmem).1
  unfold _PRE_DEFINED_COLORS at hmem2
  rw [List.mem_insertionSort] at hmem2
  unfold predefPairs at hmem2
  rw [List.mem_map] at hmem2
  obtain ⟨e, he, hpe⟩ := hmem2
  refine ⟨e, he, ?_⟩
  rw [← hpc, ← hpe]

theorem pyDictGet_table_range (s : String) (c : Color)
    (h : pyDictGet _PRE_DEFINED_COLORS s = some c) : c.normalizedRange := by
  obtain ⟨e, he, hc⟩ := pyDictGet_table_mem s c h
  obtain ⟨b1, b2, b3⟩ := rawColorTable_bytes e he
  rw [hc]
  exact byteColor_range _ _ _
    ⟨by positivity, by exact_mod_cast b1, by positivity, by exact_mod_cast b2,
      by positivity, by exact_mod_cast b3⟩

theorem parse_html_ok_range (s : String) (c : Color)
    (h : Color._parse_html_color s = .ok (some c)) : c.normalizedRange := by
  unfold Color._parse_html_color at h
  split at h
  · simp at h
  · split at h
    · simp at h
    · split at h
      · simp at h
      · split at h
        · simp at h
        · exact from_rgb_ok _ _ _ _ (map_some_ok h)
        · exact from_rgba_ok _ _ _ _ _ (map_some_ok h)
        · simp at h

theorem parse_hex_ok_range (s : String) (c : Color)
    (h : Color._parse_hex_color s = .ok (some c)) : c.normalizedRange := by
  unfold Color._parse_hex_color at h
  split at h
  · split at h
    · split at h
      · split at h
        · simp at h
        · exact from_rgb_ok _ _ _ _ (map_some_ok h)
        · exact from_rgba_ok _ _ _ _ _ (map_some_ok h)
        · simp at h
      · simp at h
    · simp at h
  · simp at h

theorem from_bytes_ok_range (bs : List ℕ) (c : Color)
    (h : Color.from_bytes bs = .ok c) : c.normalizedRange := by
  unfold Color.from_bytes at h
  split at h
  · exact from_rgb_ok _ _ _ _ h
  · exact from_rgba_ok _ _ _ _ _ h
  · cases h

theorem from_int_ok_range (n : ℤ) (c : Color)
    (h : Color.from_int n = .ok c) : c.normalizedRange := by
  unfold Color.from_int at h
  split at h
  · exact from_rgba_ok _ _ _ _ _ h
  · cases h

theorem from_html_ok_range (s : String) (c : Color)
    (h : Color.from_html s = .ok c) : c.normalizedRange := by
  unfold Color.from_html at h
  split at h
  · cases h
  · cases h
  · cases h
    exact parse_html_ok_range s c (by assumption)

theorem from_hex_ok_range (s : String) (c : Color)
    (h : Color.from_hex s = .ok c) : c.normalizedRange := by
  unfold Color.from_hex at h
  split at h
  · cases h
  · cases h
  · cases h
    exact parse_hex_ok_range s c (by assumption)

theorem createString_ok_range (s : String) (c : Color)
    (h : Color.createString s = .ok c) : c.normalizedRange := by
  unfold Color.createString at h
  split at h
  · cases h
    exact pyDictGet_table_range s c (by assumption)
  · split at h
    · cases h
    · cases h
      exact parse_html_ok_range s c (by assumption)
    · split at h
      · cases h
      · cases h
        exact parse_hex_ok_range s c (by assumption)
      · cases h

theorem create_ok_range (x : ColorLike) (c : Color)
    (hx : x.wellFormedColorArg) (h : Color.create x = .ok c) : c.normalizedRange := by
  cases x with
  | color c0 =>
    cases h
    exact hx
  | str s => exact createString_ok_range s c h
  | bytes bs => exact from_bytes_ok_range bs c h
  | int n => exact from_int_ok_range n c h
  | seq xs =>
    simp only [Color.create] at h
    split at h
    · exact (mk?_ok _ _ _ _ _ h).1
    · exact (mk?_ok _ _ _ _ _ h).1
    · cases h
  | float q => cases h

theorem rgba_of_natCast (r g b a : ℕ) :
    Color.rgba ⟨(r : ℚ) / 255, (g : ℚ) / 255, (b : ℚ) / 255, (a : ℚ) / 255⟩
      = ((r : ℤ), (g : ℤ), (b : ℤ), (a : ℤ)) := by
  have h := rgba_of_byte_quadruple (r : ℤ) (g : ℤ) (b : ℤ) (a : ℤ)
  push_cast at h ⊢
  exact h

theorem toInt_of_natCast (r g b a : ℕ) :
    Color.toInt ⟨(r : ℚ) / 255, (g : ℚ) / 255, (b : ℚ) / 255, (a : ℚ) / 255⟩
      = (a : ℤ) + (b : ℤ) * 2 ^ 8 + (g : ℤ) * 2 ^ 16 + (r : ℤ) * 2 ^ 24 := by
  unfold Color.toInt
  rw [rgba_of_natCast]

theorem pyDictGet_sorted_filter_perm (k : String) :
    List.Perm (_PRE_DEFINED_COLORS.filter (fun p => p.1 == k))
      (predefPairs.filter (fun p => p.1 == k)) := by
  unfold _PRE_DEFINED_COLORS
  exact (List.perm_insertionSort tableLe predefPairs).filter _

theorem pyDictGet_of_filter_nil (k : String)
    (h : predefPairs.filter (fun p => p.1 == k) = []) :
    pyDictGet _PRE_DEFINED_COLORS k = none := by
  unfold pyDictGet
  have hp := pyDictGet_sorted_filter_perm k
  rw [h] at hp
  rw [hp.eq_nil]
  rfl

theorem pyDictGet_of_filter_singleton (k : String) (p : String × Color)
    (h : predefPairs.filter (fun q => q.1 == k) = [p]) :
    pyDictGet _PRE_DEFINED_COLORS k = some p.2 := by
  unfold pyDictGet
  have hp := pyDictGet_sorted_filter_perm k
  rw [h] at hp
  rw [List.perm_singleton.mp hp]
  rfl

theorem from_rgb_bytes_ok (r g b : ℤ)
    (h : 0 ≤ r ∧ r ≤ 255 ∧ 0 ≤ g ∧ g ≤ 255 ∧ 0 ≤ b ∧ b ≤ 255) :
    Color.from_rgb (r : ℚ) (g : ℚ) (b : ℚ) = .ok (byteColor r g b) := by
  rw [from_rgb_eq_ok _ _ _
    ⟨by exact_mod_cast h.1, by exact_mod_cast h.2.1, by exact_mod_cast h.2.2.1,
      by exact_mod_cast h.2.2.2.1, by exact_mod_cast h.2.2.2.2.1,
      by exact_mod_cast h.2.2.2.2.2⟩]
  rfl

/-- C1: every successfully constructed `Color` — via the primary
constructor `mk?` or any factory (`create` on a well-formed input,
`from_rgb`, `from_rgba`, `from_bytes`, `from_int`, `from_html`,
`from_hex`, or a lookup in the named-color table) — has all four
channels `red`, `green`, `blue`, `alpha` in the closed interval
`[0, 1]`; and the primary constructor fails with the
`InvalidColorValue`-kind error whenever one of its four arguments lies
outside `[0, 1]`. -/
theorem c1_range_invariant :
    (∀ r g b a c, Color.mk? r g b a = .ok c → c.normalizedRange) ∧
    (∀ r g b a, ¬ (0 ≤ r ∧ r ≤ 1 ∧ 0 ≤ g ∧ g ≤ 1 ∧ 0 ≤ b ∧ b ≤ 1 ∧ 0 ≤ a ∧ a ≤ 1) →
      Color.mk? r g b a =
        .error (.invalidColorValue "RGBA coordinates must be normalized (between 0 and 1)")) ∧
    (∀ x c, ColorLike.wellFormedColorArg x → Color.create x = .ok c → c.normalizedRange) ∧
    (∀ r g b c, Color.from_rgb r g b = .ok c → c.normalizedRange) ∧
    (∀ r g b a c, Color.from_rgba r g b a = .ok c → c.normalizedRange) ∧
    (∀ bs c, Color.from_bytes bs = .ok c → c.normalizedRange) ∧
    (∀ n c, Color.from_int n = .ok c → c.normalizedRange) ∧
    (∀ s c, Color.from_html s = .ok c → c.normalizedRange) ∧
    (∀ s c, Color.from_hex s = .ok c → c.normalizedRange) ∧
    (∀ s c, pyDictGet _PRE_DEFINED_COLORS s = some c → c.normalizedRange) :=
  ⟨fun r g b a c h => (mk?_ok r g b a c h).1,
   mk?_eq_err,
   create_ok_range,
   from_rgb_ok,
   from_rgba_ok,
   from_bytes_ok_range,
   from_int_ok_range,
   from_html_ok_range,
   from_hex_ok_range,
   pyDictGet_table_range⟩

/-- Witness for C1 at concrete inputs: the constructor succeeds in range
on `(1/2, 0, 1, 1)` and rejects `(2, 0, 0, 1)`. -/
theorem c1_range_invariant_witness :
    Color.normalizedRange ⟨1 / 2, 0, 1, 1⟩ ∧
    Color.mk? 2 0 0 1 =
      .error (.invalidColorValue "RGBA coordinates must be normalized (between 0 and 1)") :=
  ⟨c1_range_invariant.1 (1 / 2) 0 1 1 ⟨1 / 2, 0, 1, 1⟩ (mk?_eq_ok _ _ _ _ (by norm_num)),
   c1_range_invariant.2.1 2 0 0 1 (by norm_num)⟩

/-- C2: for all integers `r`, `g`, `b`, `a` in `[0, 255]`,
`from_rgba(r, g, b, a).rgba()` returns exactly `(r, g, b, a)`. -/
theorem c2_rgba_roundtrip (r g b a : ℕ) (hr : r ≤ 255) (hg : g ≤ 255)
    (hb : b ≤ 255) (ha : a ≤ 255) :
    (Color.from_rgba (r : ℚ) (g : ℚ) (b : ℚ) (a : ℚ)).map Color.rgba
      = .ok ((r : ℤ), (g : ℤ), (b : ℤ), (a : ℤ)) := by
  rw [from_rgba_eq_ok _ _ _ _
    ⟨by positivity, by exact_mod_cast hr, by positivity, by exact_mod_cast hg,
      by positivity, by exact_mod_cast hb, by positivity, by exact_mod_cast ha⟩]
  simp only [Except.map]
  rw [rgba_of_natCast]

/-- Witness for C2 at `(18, 52, 86, 120)`. -/
theorem c2_rgba_roundtrip_witness :
    (Color.from_rgba ((18 : ℕ) : ℚ) ((52 : ℕ) : ℚ) ((86 : ℕ) : ℚ) ((120 : ℕ) : ℚ)).map
      Color.rgba = .ok (((18 : ℕ) : ℤ), ((52 : ℕ) : ℤ), ((86 : ℕ) : ℤ), ((120 : ℕ) : ℤ)) :=
  c2_rgba_roundtrip 18 52 86 120 (by decide) (by decide) (by decide) (by decide)

/-- C3: for every integer `v` in `[0, 0xFFFFFFFF]`, `int(from_int(v))`
is exactly `v` (packing `alpha | blue<<8 | green<<16 | red<<24` of the
rounded 8-bit channels). -/
theorem c3_packed_int_roundtrip (v : ℕ) (hv : v ≤ 0xFFFFFFFF) :
    (Color.from_int (v : ℤ)).map Color.toInt = .ok (v : ℤ) := by
  unfold Color.from_int
  rw [if_pos ⟨by positivity, by exact_mod_cast hv⟩, Int.toNat_natCast]
  rw [from_rgba_eq_ok _ _ _ _
    ⟨by positivity, by exact_mod_cast Nat.and_le_right, by positivity,
      by exact_mod_cast Nat.and_le_right, by positivity, by exact_mod_cast Nat.and_le_right,
      by positivity, by exact_mod_cast Nat.and_le_right⟩]
  simp only [Except.map]
  rw [toInt_of_natCast]
  norm_num
  exact_mod_cast nat_bytes_recompose v (by omega)

/-- Witness for C3 at `v = 0x4566FFFF`. -/
theorem c3_packed_int_roundtrip_witness :
    (Color.from_int ((0x4566FFFF : ℕ) : ℤ)).map Color.toInt = .ok ((0x4566FFFF : ℕ) : ℤ) :=
  c3_packed_int_roundtrip 0x4566FFFF (by decide)

theorem from_rgb_eq_err (r g b : ℚ)
    (h : ¬ (0 ≤ r ∧ r ≤ 255 ∧ 0 ≤ g ∧ g ≤ 255 ∧ 0 ≤ b ∧ b ≤ 255)) :
    Color.from_rgb r g b =
      .error (.invalidColorValue "RGB coordinates must be between 0 and 255") := by
  unfold Color.from_rgb
  exact if_neg h

set_option maxRecDepth 40000 in
theorem lookup_red : pyDictGet _PRE_DEFINED_COLORS "red" = some (byteColor 255 0 0) :=
  pyDictGet_of_filter_singleton "red" ("red", byteColor 255 0 0) (by rfl)

set_option maxRecDepth 40000 in
theorem lookup_none_hash3C54FF : pyDictGet _PRE_DEFINED_COLORS "#3C54FF" = none :=
  pyDictGet_of_filter_nil "#3C54FF" (by rfl)

set_option maxRecDepth 40000 in
theorem lookup_none_0x404040 : pyDictGet _PRE_DEFINED_COLORS "0x404040" = none :=
  pyDictGet_of_filter_nil "0x404040" (by rfl)

set_option maxRecDepth 40000 in
theorem lookup_none_not_a_color : pyDictGet _PRE_DEFINED_COLORS "not-a-color" = none :=
  pyDictGet_of_filter_nil "not-a-color" (by rfl)

set_option maxRecDepth 40000 in
theorem lookup_none_hash12345 : pyDictGet _PRE_DEFINED_COLORS "#12345" = none :=
  pyDictGet_of_filter_nil "#12345" (by rfl)

set_option maxRecDepth 40000 in
theorem lookup_none_hash_plus : pyDictGet _PRE_DEFINED_COLORS "#+1+2+3" = none :=
  pyDictGet_of_filter_nil "#+1+2+3" (by rfl)

set_option maxRecDepth 40000 in
theorem lookup_none_hash_minus : pyDictGet _PRE_DEFINED_COLORS "#-1-2-3" = none :=
  pyDictGet_of_filter_nil "#-1-2-3" (by rfl)

theorem parse_html_hash3C54FF :
    Color._parse_html_color "#3C54FF"
      = (Color.from_rgb ((60 : ℤ) : ℚ) ((84 : ℤ) : ℚ) ((255 : ℤ) : ℚ)).map some := by rfl

theorem parse_html_0x404040 : Color._parse_html_color "0x404040" = .ok none := by rfl

theorem parse_hex_0x404040 :
    Color._parse_hex_color "0x404040"
      = (Color.from_rgb ((64 : ℤ) : ℚ) ((64 : ℤ) : ℚ) ((64 : ℤ) : ℚ)).map some := by rfl

theorem parse_html_not_a_color : Color._parse_html_color "not-a-color" = .ok none := by rfl

theorem parse_hex_not_a_color : Color._parse_hex_color "not-a-color" = .ok none := by rfl

theorem parse_html_hash_plus :
    Color._parse_html_color "#+1+2+3"
      = (Color.from_rgb ((1 : ℤ) : ℚ) ((2 : ℤ) : ℚ) ((3 : ℤ) : ℚ)).map some := by rfl

theorem parse_html_hash_minus :
    Color._parse_html_color "#-1-2-3"
      = (Color.from_rgb ((-1 : ℤ) : ℚ) ((-2 : ℤ) : ℚ) ((-3 : ℤ) : ℚ)).map some := by rfl

/-- C4: on a string input, `create` first tries an exact (case-sensitive)
lookup in the named-color table, then the HTML parser, then the
hex-literal parser, and if all three decline it fails with the
`InvalidColorFormat`-kind error whose message names the offending
string. -/
theorem c4_create_string_priority (s : String) :
    (∀ c, pyDictGet _PRE_DEFINED_COLORS s = some c → Color.create (.str s) = .ok c) ∧
    (∀ c, pyDictGet _PRE_DEFINED_COLORS s = none →
      Color._parse_html_color s = .ok (some c) → Color.create (.str s) = .ok c) ∧
    (∀ c, pyDictGet _PRE_DEFINED_COLORS s = none → Color._parse_html_color s = .ok none →
      Color._parse_hex_color s = .ok (some c) → Color.create (.str s) = .ok c) ∧
    (pyDictGet _PRE_DEFINED_COLORS s = none → Color._parse_html_color s = .ok none →
      Color._parse_hex_color s = .ok none →
      Color.create (.str s) =
        .error (.invalidColorFormat ("Invalid string format for color: \x27" ++ s ++ "\x27"))) := by
  refine ⟨?_, ?_, ?_, ?_⟩
  · intro c h
    show Color.createString s = .ok c
    unfold Color.createString
    rw [h]
  · intro c h1 h2
    show Color.createString s = .ok c
    unfold Color.createString
    rw [h1, h2]
  · intro c h1 h2 h3
    show Color.createString s = .ok c
    unfold Color.createString
    rw [h1, h2, h3]
  · intro h1 h2 h3
    show Color.createString s = _
    unfold Color.createString
    rw [h1, h2, h3]

/-- Witness for C4, exercising all four priority cases: a named color, an
HTML string, a hex-literal string, and an unmatched string. -/
theorem c4_create_string_priority_witness :
    Color.create (.str "red") = .ok (byteColor 255 0 0) ∧
    Color.create (.str "#3C54FF") = .ok (byteColor 60 84 255) ∧
    Color.create (.str "0x404040") = .ok (byteColor 64 64 64) ∧
    Color.create (.str "not-a-color") =
      .error (.invalidColorFormat "Invalid string format for color: \x27not-a-color\x27") :=
  ⟨(c4_create_string_priority "red").1 _ lookup_red,
   (c4_create_string_priority "#3C54FF").2.1 _ lookup_none_hash3C54FF
     (by rw [parse_html_hash3C54FF, from_rgb_bytes_ok 60 84 255 (by norm_num)]; rfl),
   (c4_create_string_priority "0x404040").2.2.1 _ lookup_none_0x404040 parse_html_0x404040
     (by rw [parse_hex_0x404040, from_rgb_bytes_ok 64 64 64 (by norm_num)]; rfl),
   (c4_create_string_priority "not-a-color").2.2.2 lookup_none_not_a_color
     parse_html_not_a_color parse_hex_not_a_color⟩

set_option maxRecDepth 40000 in
/-- C5 fails on the code (code bug): the parsers delegate digit pairs to
the Python call `int(_, 16)`, which also accepts sign and whitespace
characters, so a pair with a non-hex character need not yield a
no-match.  At the failing input `"#+1+2+3"` the code returns the color
`from_rgb(1, 2, 3)` instead of failing with `InvalidColorFormat`; at
`"#-1-2-3"` it raises the `InvalidColorValue`-kind range error from
`from_rgb(-1, -2, -3)` instead of the claimed `InvalidColorFormat`. -/
theorem c5_nonhex_pair_accepted :
    Color.create (.str "#+1+2+3") = .ok (byteColor 1 2 3) ∧
    Color.create (.str "#-1-2-3") =
      .error (.invalidColorValue "RGB coordinates must be between 0 and 255") := by
  constructor
  · show Color.createString "#+1+2+3" = _
    unfold Color.createString
    rw [lookup_none_hash_plus, parse_html_hash_plus, from_rgb_bytes_ok 1 2 3 (by norm_num)]
    rfl
  · show Color.createString "#-1-2-3" = _
    unfold Color.createString
    rw [lookup_none_hash_minus, parse_html_hash_minus,
      from_rgb_eq_err _ _ _ (by push_cast; norm_num)]
    rfl

/-- Counterexample to C6 as stated: `from_rgb` does not reject
non-integer arguments; on the non-integer in-range input `1/2` it
succeeds (the Python `int` annotations are not enforced at runtime). -/
theorem c6_noninteger_accepted :
    Color.from_rgb (1 / 2 : ℚ) 0 0 = .ok ⟨1 / 510, 0, 0, 1⟩ ∧
    ¬ ∃ n : ℤ, ((1 / 2 : ℚ)) = (n : ℚ) := by
  constructor
  · rw [from_rgb_eq_ok _ _ _ (by norm_num)]
    simp only [Except.ok.injEq, Color.mk.injEq]
    norm_num
  · rintro ⟨n, hn⟩
    have h2 : (1 : ℚ) = 2 * (n : ℚ) := by
      field_simp at hn
      linarith
    have h3 : (1 : ℤ) = 2 * n := by exact_mod_cast h2
    omega

/-- C6 as amended: `from_rgb(r, g, b)` fails with the
`InvalidColorValue`-kind error exactly when some argument lies outside
`[0, 255]` (non-integers inside the range are accepted); on arguments in
`[0, 255]` — in particular on all integers in `[0, 255]` — it succeeds
with channels `r/255`, `g/255`, `b/255` and alpha fully opaque. -/
theorem c6_from_rgb_amended (r g b : ℚ) :
    (¬ (0 ≤ r ∧ r ≤ 255 ∧ 0 ≤ g ∧ g ≤ 255 ∧ 0 ≤ b ∧ b ≤ 255) →
      Color.from_rgb r g b =
        .error (.invalidColorValue "RGB coordinates must be between 0 and 255")) ∧
    ((0 ≤ r ∧ r ≤ 255 ∧ 0 ≤ g ∧ g ≤ 255 ∧ 0 ≤ b ∧ b ≤ 255) →
      Color.from_rgb r g b = .ok ⟨r / 255, g / 255, b / 255, 1⟩) :=
  ⟨from_rgb_eq_err r g b, from_rgb_eq_ok r g b⟩

/-- Witness for the amended C6: rejection at `256` and success at
`(18, 52, 86)`. -/
theorem c6_from_rgb_amended_witness :
    Color.from_rgb 256 0 0 =
      .error (.invalidColorValue "RGB coordinates must be between 0 and 255") ∧
    Color.from_rgb 18 52 86 = .ok ⟨18 / 255, 52 / 255, 86 / 255, 1⟩ :=
  ⟨(c6_from_rgb_amended 256 0 0).1 (by norm_num),
   (c6_from_rgb_amended 18 52 86).2 (by norm_num)⟩

set_option maxRecDepth 40000 in
/-- C7: `create("#12345")` fails with the `InvalidColorFormat` kind;
`from_rgb(256, 0, 0)` and `Color(1.1, 0, 0)` fail with the
`InvalidColorValue` kind; `create(3.5)` fails with the
`UnsupportedColorType` kind, which is distinct from the other two
kinds. -/
theorem c7_boundary_rejection :
    Color.create (.str "#12345") =
      .error (.invalidColorFormat "Invalid string format for color: \x27#12345\x27") ∧
    Color.from_rgb 256 0 0 =
      .error (.invalidColorValue "RGB coordinates must be between 0 and 255") ∧
    Color.mk? (11 / 10) 0 0 1 =
      .error (.invalidColorValue "RGBA coordinates must be normalized (between 0 and 1)") ∧
    Color.create (.float (7 / 2)) = .error .unsupportedColorType ∧
    (ColorError.unsupportedColorType ==
      ColorError.invalidColorFormat "Invalid string format for color: \x27#12345\x27") = false ∧
    (ColorError.unsupportedColorType ==
      ColorError.invalidColorValue "RGB coordinates must be between 0 and 255") = false := by
  refine ⟨?_, from_rgb_eq_err _ _ _ (by norm_num), mk?_eq_err _ _ _ _ (by norm_num),
    rfl, rfl, rfl⟩
  show Color.createString "#12345" = _
  unfold Color.createString
  rw [lookup_none_hash12345]
  rfl

/-- C8: `create` applied to a value that is already a `Color` returns it
unchanged; consequently, whenever `create x` succeeds with color `c`,
applying `create` to that result again succeeds with the same color
(`create (create x) = create x`). -/
theorem c8_create_idempotent :
    (∀ c : Color, Color.create (.color c) = .ok c) ∧
    (∀ (x : ColorLike) (c : Color), Color.create x = .ok c →
      Color.create (.color c) = .ok c) :=
  ⟨fun _ => rfl, fun _ _ _ => rfl⟩

/-- Witness for C8: idempotence exercised through a color obtained from
`create` itself. -/
theorem c8_create_idempotent_witness :
    Color.create (.color ⟨0, 0, 0, 1⟩) = .ok ⟨0, 0, 0, 1⟩ :=
  c8_create_idempotent.2 (.color ⟨0, 0, 0, 1⟩) ⟨0, 0, 0, 1⟩
    (c8_create_idempotent.1 ⟨0, 0, 0, 1⟩)

/-- C9: `names()` is the complete list of keys of the named-color table
— the same members as the raw table keys — in ascending (code-point)
lexicographic order; in the embedding it is a pure function of the
static table, so it has no side effects and mutates nothing. -/
theorem c9_names_sorted_complete :
    List.Sorted pyStrLe Color.names ∧
    (∀ k, k ∈ Color.names ↔ k ∈ rawColorTable.map (fun e => e.1)) := by
  constructor
  · unfold Color.names pyDictKeys
    have hs : List.Sorted tableLe _PRE_DEFINED_COLORS := by
      unfold _PRE_DEFINED_COLORS
      haveI : IsTotal (String × Color) tableLe := ⟨tableLe_total⟩
      haveI : IsTrans (String × Color) tableLe := ⟨tableLe_trans⟩
      exact List.sorted_insertionSort tableLe predefPairs
    have hmap : List.Sorted pyStrLe (_PRE_DEFINED_COLORS.map (fun p => p.1)) :=
      List.Pairwise.map _ (fun _ _ hab => hab) hs
    exact hmap.sublist (dedupFirst_sublist _)
  · intro k
    unfold Color.names pyDictKeys
    rw [mem_dedupFirst]
    have hperm : List.Perm (_PRE_DEFINED_COLORS.map (fun p => p.1))
        (predefPairs.map (fun p => p.1)) := by
      unfold _PRE_DEFINED_COLORS
      exact (List.perm_insertionSort tableLe predefPairs).map _
    have heq : predefPairs.map (fun p => p.1) = rawColorTable.map (fun e => e.1) := by
      unfold predefPairs
      rw [List.map_map]
      rfl
    rw [hperm.mem_iff, heq]

/-- C10: for all integers `r`, `g`, `b` in `[0, 255]`,
`from_rgb(r, g, b)` and `from_rgba(r, g, b, 255)` build the same color:
the constructor default alpha `1` coincides with `255 / 255`. -/
theorem c10_alpha_default_coherence (r g b : ℕ) (hr : r ≤ 255) (hg : g ≤ 255)
    (hb : b ≤ 255) :
    Color.from_rgb (r : ℚ) (g : ℚ) (b : ℚ) = Color.from_rgba (r : ℚ) (g : ℚ) (b : ℚ) 255 := by
  rw [from_rgb_eq_ok _ _ _
    ⟨by positivity, by exact_mod_cast hr, by positivity, by exact_mod_cast hg,
      by positivity, by exact_mod_cast hb⟩,
    from_rgba_eq_ok _ _ _ _
    ⟨by positivity, by exact_mod_cast hr, by positivity, by exact_mod_cast hg,
      by positivity, by exact_mod_cast hb, by norm_num, by norm_num⟩]
  simp only [Except.ok.injEq, Color.mk.injEq]
  norm_num

/-- Witness for C10 at `(0, 128, 255)`. -/
theorem c10_alpha_default_coherence_witness :
    Color.from_rgb ((0 : ℕ) : ℚ) ((128 : ℕ) : ℚ) ((255 : ℕ) : ℚ)
      = Color.from_rgba ((0 : ℕ) : ℚ) ((128 : ℕ) : ℚ) ((255 : ℕ) : ℚ) 255 :=
  c10_alpha_default_coherence 0 128 255 (by decide) (by decide) (by decide)
